import Mathlib

/-!
Verification of the Google-Keep-clone backend: a shallow embedding of the
reminder recurrence engine (`src/models/Reminder.js`), the note flag
operations (Note model), and the auth / ownership / rate-limit middleware
(`src/unnamed/part_000`), together with proofs checking the specification's
claims against this embedding.

UTC instants are modelled as a civil date (year, 0-based month, 1-based day)
plus milliseconds within the day, mirroring what the JavaScript `Date`
methods used by the code read and write.
-/

namespace KeepClone

/-! ## JavaScript `Date` model -/

def isLeap (y : Int) : Bool :=
  (y % 4 == 0 && y % 100 != 0) || y % 400 == 0

/-- Days in month `m` (0-based, January = 0) of year `y`. -/
def daysInMonth (y : Int) (m : Int) : Int :=
  if m = 1 then (if isLeap y then 29 else 28)
  else if m = 3 ∨ m = 5 ∨ m = 8 ∨ m = 10 then 30
  else 31

/-- Days since the Unix epoch of civil date (`y`, month `m` 0-based, day `d`
1-based), by the standard civil-from-days algorithm.  Matches the day
numbering of the JavaScript `Date` UTC accessors. -/
def civilToDays (y m d : Int) : Int :=
  let yy := if m ≤ 1 then y - 1 else y
  let era := yy.fdiv 400
  let yoe := yy - era * 400
  let mp := (m + 10) % 12
  let doy := (153 * mp + 2) / 5 + d - 1
  let doe := yoe * 365 + yoe / 4 - yoe / 100 + doy
  era * 146097 + doe - 719468

/-- Inverse of `civilToDays`: civil date (year, 0-based month, 1-based day)
of a days-since-epoch count. -/
def daysToCivil (z : Int) : Int × Int × Int :=
  let z' := z + 719468
  let era := z'.fdiv 146097
  let doe := z' - era * 146097
  let yoe := (doe - doe / 1460 + doe / 36524 - doe / 146096) / 365
  let y := yoe + era * 400
  let doy := doe - (365 * yoe + yoe / 4 - yoe / 100)
  let mp := (5 * doy + 2) / 153
  let d := doy - (153 * mp + 2) / 5 + 1
  let m := if mp < 10 then mp + 2 else mp - 10
  (if m ≤ 1 then y + 1 else y, m, d)

/-- A UTC instant the way the reminder code manipulates it: civil date plus
milliseconds within the day. -/
structure JDateTime where
  y : Int
  m : Int
  d : Int
  ms : Int
  deriving DecidableEq, Repr

def toDays (dt : JDateTime) : Int := civilToDays dt.y dt.m dt.d

/-- Millisecond timestamp; JavaScript `Date` comparison compares these. -/
def toMillis (dt : JDateTime) : Int := toDays dt * 86400000 + dt.ms

def ofDays (days ms : Int) : JDateTime :=
  let c := daysToCivil days
  ⟨c.1, c.2.1, c.2.2, ms⟩

/-- JavaScript `date.setDate(x)`: replace the day-of-month by `x`,
normalizing out-of-range values by rolling into adjacent months. -/
def jsSetDate (dt : JDateTime) (x : Int) : JDateTime :=
  ofDays (civilToDays dt.y dt.m 1 + (x - 1)) dt.ms

/-- JavaScript `date.setMonth(x)`: replace the (0-based) month by `x`,
carrying into the year, keeping the day number and normalizing overflow. -/
def jsSetMonth (dt : JDateTime) (x : Int) : JDateTime :=
  ofDays (civilToDays (dt.y + x.fdiv 12) (x % 12) 1 + (dt.d - 1)) dt.ms

/-- JavaScript `date.setFullYear(x)`: replace the year by `x`, keeping month
and day number and normalizing overflow (Feb 29 of a leap year lands on
Mar 1 of a non-leap target year). -/
def jsSetFullYear (dt : JDateTime) (x : Int) : JDateTime :=
  ofDays (civilToDays x dt.m 1 + (dt.d - 1)) dt.ms

/-! Spec-side date arithmetic, worded as the specification describes it. -/

/-- Advance an instant by `n` whole days (spec wording: "+n days"). -/
def addDays (dt : JDateTime) (n : Int) : JDateTime :=
  ofDays (toDays dt + n) dt.ms

/-- Spec wording: advance by `n` calendar months — add `n` to the month
field, carrying into the year, keeping the day-of-month but letting it
shift forward when the target month is shorter. -/
def addCalendarMonths (dt : JDateTime) (n : Int) : JDateTime :=
  let t := dt.m + n
  ofDays (civilToDays (dt.y + t.fdiv 12) (t % 12) 1 + (dt.d - 1)) dt.ms

/-- Spec wording: advance by `n` calendar years — add `n` to the year field,
keeping month and day-of-month, the day shifting on Feb-29 overflow. -/
def addCalendarYears (dt : JDateTime) (n : Int) : JDateTime :=
  ofDays (civilToDays (dt.y + n) dt.m 1 + (dt.d - 1)) dt.ms

/-! ## Reminder model (`src/models/Reminder.js`) -/

/-- The `recurrencePattern` subdocument of the reminder schema. -/
structure RecurrencePattern where
  type : String
  interval : Int
  daysOfWeek : List Int
  dayOfMonth : Option Int
  endDate : Option JDateTime
  occurrenceCount : Option Int
  deriving DecidableEq, Repr

/-- One entry of the `occurrences` history array. -/
structure Occurrence where
  scheduledFor : JDateTime
  completedAt : Option JDateTime
  wasSkipped : Bool
  deriving DecidableEq, Repr

/-- The fields of a reminder document read or written by the scheduling
methods and the notification query. -/
structure Reminder where
  reminderDateTime : JDateTime
  isRecurring : Bool
  recurrencePattern : RecurrencePattern
  isCompleted : Bool
  completedAt : Option JDateTime
  isActive : Bool
  isSnoozed : Bool
  snoozeUntil : Option JDateTime
  notificationSent : Bool
  occurrences : List Occurrence
  lastTriggered : Option JDateTime
  nextTrigger : Option JDateTime
  deriving DecidableEq, Repr

/-- The `switch (pattern.type)` body of `calculateNextTrigger`: the value
the mutated `current` date holds when the switch ends. -/
def codeNextDateTime (p : RecurrencePattern) (current : JDateTime) : JDateTime :=
  if p.type = "daily" then jsSetDate current (current.d + p.interval)
  else if p.type = "weekly" then jsSetDate current (current.d + 7 * p.interval)
  else if p.type = "monthly" then jsSetMonth current (current.m + p.interval)
  else if p.type = "yearly" then jsSetFullYear current (current.y + p.interval)
  else jsSetDate current (current.d + 1)

/-- Method `reminderSchema.methods.calculateNextTrigger`. -/
def calculateNextTrigger (r : Reminder) : Reminder :=
  if !r.isRecurring then { r with nextTrigger := some r.reminderDateTime }
  else { r with nextTrigger := some (codeNextDateTime r.recurrencePattern r.reminderDateTime) }

/-- Condition `this.recurrencePattern.endDate && new Date() > this.recurrencePattern.endDate`:
a `null` end date is falsy, otherwise the dates compare by timestamp. -/
def endDatePassed (now : JDateTime) (p : RecurrencePattern) : Bool :=
  match p.endDate with
  | some e => decide (toMillis e < toMillis now)
  | none => false

/-- Condition `this.recurrencePattern.occurrenceCount && this.occurrences.length >= count`:
a `null` (or zero, by JS truthiness) count is falsy. -/
def occurrenceLimitReached (p : RecurrencePattern) (len : Nat) : Bool :=
  match p.occurrenceCount with
  | some c => decide (c ≠ 0 ∧ c ≤ (len : Int))
  | none => false

/-- Method `reminderSchema.methods.scheduleNextOccurrence`. -/
def scheduleNextOccurrence (now : JDateTime) (r : Reminder) : Reminder :=
  if !r.isRecurring then r
  else if endDatePassed now r.recurrencePattern then { r with isActive := false }
  else if occurrenceLimitReached r.recurrencePattern r.occurrences.length then
    { r with isActive := false }
  else
    let r1 := calculateNextTrigger r
    { r1 with
      reminderDateTime := r1.nextTrigger.getD r1.reminderDateTime
      isCompleted := false
      completedAt := none
      notificationSent := false }

/-- Condition `this.isSnoozed && this.snoozeUntil && new Date() > this.snoozeUntil`. -/
def snoozeExpired (now : JDateTime) (r : Reminder) : Bool :=
  r.isSnoozed && (match r.snoozeUntil with
    | some s => decide (toMillis s < toMillis now)
    | none => false)

/-- The `pre('save')` middleware of the reminder schema. -/
def preSave (now : JDateTime) (r : Reminder) : Reminder :=
  let r1 :=
    if r.isRecurring && r.isActive && !r.isCompleted then calculateNextTrigger r
    else if !r.isRecurring then { r with nextTrigger := some r.reminderDateTime }
    else r
  if snoozeExpired now r1 then { r1 with isSnoozed := false, snoozeUntil := none }
  else r1

/-- Method `reminderSchema.methods.markCompleted`; the trailing `this.save()` runs
the pre-save middleware. -/
def markCompleted (now : JDateTime) (r : Reminder) : Reminder :=
  let r1 := { r with isCompleted := true, completedAt := some now }
  let r2 :=
    if r1.isRecurring then
      scheduleNextOccurrence now
        { r1 with occurrences := r1.occurrences ++
            [{ scheduledFor := r1.reminderDateTime, completedAt := some now,
               wasSkipped := false }] }
    else r1
  preSave now r2

/-- Query `reminderSchema.statics.findDueForNotification` as a filter over a
collection of reminder documents.  The Mongo `$or` matches `isSnoozed:
false` or `snoozeUntil ≤ now`; `{$lte: now}` does not match a `null`
`snoozeUntil`. -/
def findDueForNotification (now : JDateTime) (db : List Reminder) : List Reminder :=
  db.filter (fun r =>
    r.isActive && !r.isCompleted && !r.notificationSent &&
    decide (toMillis r.reminderDateTime ≤ toMillis now) &&
    (!r.isSnoozed || (match r.snoozeUntil with
      | some s => decide (toMillis s ≤ toMillis now)
      | none => false)))

/-- The advance of `reminderDateTime` that the specification describes for
each periodicity, written with the spec-side date helpers. -/
def specNextTrigger (p : RecurrencePattern) (dt : JDateTime) : JDateTime :=
  if p.type = "daily" then addDays dt p.interval
  else if p.type = "weekly" then addDays dt (7 * p.interval)
  else if p.type = "monthly" then addCalendarMonths dt p.interval
  else if p.type = "yearly" then addCalendarYears dt p.interval
  else addDays dt 1

theorem civilToDays_day (y m d : Int) :
    civilToDays y m d = civilToDays y m 1 + (d - 1) := by
  simp only [civilToDays]
  ring

/-- Calling `setDate(getDate() + n)` is exactly day-count addition by `n`. -/
theorem jsSetDate_add (dt : JDateTime) (n : Int) :
    jsSetDate dt (dt.d + n) = addDays dt n := by
  simp only [jsSetDate, addDays, toDays, civilToDays_day dt.y dt.m dt.d]
  ring_nf

/-- The switch of `calculateNextTrigger` computes, case by case, exactly the
advance the specification describes. -/
theorem codeNextDateTime_eq_spec (p : RecurrencePattern) (dt : JDateTime) :
    codeNextDateTime p dt = specNextTrigger p dt := by
  unfold codeNextDateTime specNextTrigger
  by_cases hd : p.type = "daily"
  · simp [hd, jsSetDate_add]
  · by_cases hw : p.type = "weekly"
    · simp [hd, hw, jsSetDate_add]
    · by_cases hm : p.type = "monthly"
      · simp [hd, hw, hm, jsSetMonth, addCalendarMonths]
      · by_cases hy : p.type = "yearly"
        · simp [hd, hw, hm, hy, jsSetFullYear, addCalendarYears]
        · simpa [hd, hw, hm, hy] using jsSetDate_add dt 1

/-! ## Shared concrete sample documents -/

def jan1_2024 : JDateTime := ⟨2024, 0, 1, 36000000⟩

def basePattern : RecurrencePattern :=
  { type := "daily", interval := 1, daysOfWeek := [], dayOfMonth := none,
    endDate := none, occurrenceCount := none }

def baseReminder : Reminder :=
  { reminderDateTime := jan1_2024, isRecurring := false,
    recurrencePattern := basePattern, isCompleted := false, completedAt := none,
    isActive := true, isSnoozed := false, snoozeUntil := none,
    notificationSent := false, occurrences := [], lastTriggered := none,
    nextTrigger := none }

/-! ## Claim C1 -/

/-- C1: for every recurring reminder, `calculateNextTrigger` sets
`nextTrigger` to `reminderDateTime` advanced by `interval` days for a
`daily` pattern, `7·interval` days for `weekly`, `interval` calendar months
for `monthly` (day-of-month may shift on overflow), `interval` calendar
years for `yearly`, and exactly 1 day for any unrecognized pattern type
(including `custom`); no other field is modified. -/
theorem c1_calculateNextTrigger_advance (r : Reminder) (h : r.isRecurring = true) :
    calculateNextTrigger r =
      { r with
        nextTrigger := some (specNextTrigger r.recurrencePattern r.reminderDateTime) } := by
  simp [calculateNextTrigger, h, codeNextDateTime_eq_spec]

/-- A recurring reminder whose pattern type is the unrecognized `custom`. -/
def customReminder : Reminder :=
  { baseReminder with
    isRecurring := true
    recurrencePattern := { basePattern with type := "custom" } }

/-- C1 witness: a recurring reminder with the unrecognized type `custom`
advances by exactly one day. -/
theorem c1_calculateNextTrigger_advance_witness :
    calculateNextTrigger customReminder =
      { customReminder with nextTrigger := some ⟨2024, 0, 2, 36000000⟩ } := by
  rw [c1_calculateNextTrigger_advance customReminder rfl]
  decide

/-! ## Claim C3 -/

/-- C3: for every reminder with `isRecurring = false`, after the pre-save
normalization has run, `nextTrigger` equals `reminderDateTime`. -/
theorem c3_nonRecurring_nextTrigger (now : JDateTime) (r : Reminder)
    (h : r.isRecurring = false) :
    (preSave now r).nextTrigger = some ((preSave now r).reminderDateTime) := by
  simp only [preSave, h, Bool.false_and, Bool.not_false, Bool.false_eq_true,
    if_false, if_true, ite_true, ite_false]
  split <;> rfl

def sampleNow : JDateTime := ⟨2024, 5, 15, 43200000⟩

/-- C3 witness: the non-recurring sample reminder. -/
theorem c3_nonRecurring_nextTrigger_witness :
    (preSave sampleNow baseReminder).nextTrigger =
      some ((preSave sampleNow baseReminder).reminderDateTime) :=
  c3_nonRecurring_nextTrigger sampleNow baseReminder rfl

/-! ## Claim C4 -/

/-- C4: for an active recurring daily reminder with `interval = 3` and
`reminderDateTime = 2024-01-01T10:00Z`, with no termination condition met,
`markCompleted` appends `{scheduledFor: 2024-01-01T10:00Z, completedAt: now}`
to the occurrence history, advances `reminderDateTime` to
`2024-01-04T10:00Z`, and leaves the reminder pending again:
`completed = false`, `completedAt = null`, `notificationSent = false`. -/
theorem c4_markCompleted_daily3 (now : JDateTime) (r : Reminder)
    (hrec : r.isRecurring = true) (hact : r.isActive = true)
    (htype : r.recurrencePattern.type = "daily")
    (hint : r.recurrencePattern.interval = 3)
    (hend : endDatePassed now r.recurrencePattern = false)
    (hcnt : occurrenceLimitReached r.recurrencePattern (r.occurrences.length + 1) = false)
    (hdt : r.reminderDateTime = jan1_2024) :
    (markCompleted now r).occurrences =
        r.occurrences ++
          [{ scheduledFor := jan1_2024, completedAt := some now, wasSkipped := false }] ∧
      (markCompleted now r).reminderDateTime = ⟨2024, 0, 4, 36000000⟩ ∧
      (markCompleted now r).isCompleted = false ∧
      (markCompleted now r).completedAt = none ∧
      (markCompleted now r).notificationSent = false := by
  have hcode : codeNextDateTime r.recurrencePattern jan1_2024 = ⟨2024, 0, 4, 36000000⟩ := by
    simp only [codeNextDateTime, htype, hint, if_true]
    decide
  simp only [markCompleted, scheduleNextOccurrence, preSave, calculateNextTrigger,
    hrec, hact, hend, hdt, hcode, hcnt, List.length_append, List.length_cons,
    List.length_nil, Nat.zero_add, Bool.not_true, Bool.not_false, Bool.true_and,
    Bool.and_self, Bool.false_eq_true, if_true, if_false, ite_true, ite_false,
    Option.getD_some]
  split <;> simp

/-- C4 witness: the concrete daily reminder of the claim. -/
def dailyReminder : Reminder :=
  { baseReminder with
    isRecurring := true
    recurrencePattern := { basePattern with interval := 3 } }

theorem c4_markCompleted_daily3_witness :
    (markCompleted sampleNow dailyReminder).occurrences =
        dailyReminder.occurrences ++
          [{ scheduledFor := jan1_2024, completedAt := some sampleNow, wasSkipped := false }] ∧
      (markCompleted sampleNow dailyReminder).reminderDateTime = ⟨2024, 0, 4, 36000000⟩ ∧
      (markCompleted sampleNow dailyReminder).isCompleted = false ∧
      (markCompleted sampleNow dailyReminder).completedAt = none ∧
      (markCompleted sampleNow dailyReminder).notificationSent = false :=
  c4_markCompleted_daily3 sampleNow dailyReminder rfl rfl rfl rfl rfl rfl rfl

/-! ## Helper lemmas for chained `markCompleted` calls -/

theorem calculateNextTrigger_eq (r : Reminder) :
    calculateNextTrigger r =
      { r with nextTrigger := some (if r.isRecurring then codeNextDateTime r.recurrencePattern r.reminderDateTime else r.reminderDateTime) } := by
  cases h : r.isRecurring <;> simp [calculateNextTrigger, h]

/-- The pre-save middleware only touches `nextTrigger`, `isSnoozed` and
`snoozeUntil`; every other field is preserved. -/
theorem preSave_proj (now : JDateTime) (r : Reminder) :
    (preSave now r).reminderDateTime = r.reminderDateTime ∧
      (preSave now r).isRecurring = r.isRecurring ∧
      (preSave now r).recurrencePattern = r.recurrencePattern ∧
      (preSave now r).isCompleted = r.isCompleted ∧
      (preSave now r).completedAt = r.completedAt ∧
      (preSave now r).isActive = r.isActive ∧
      (preSave now r).notificationSent = r.notificationSent ∧
      (preSave now r).occurrences = r.occurrences := by
  simp only [preSave]
  split <;> split <;> (try split) <;> simp [calculateNextTrigger_eq]

/-- Behavior of `markCompleted` when no termination condition fires: the occurrence is
recorded, the date advances, and the pending flags reset, before the save
hook runs. -/
theorem markCompleted_advance_eq (now : JDateTime) (r : Reminder)
    (hrec : r.isRecurring = true)
    (hend : endDatePassed now r.recurrencePattern = false)
    (hcnt : occurrenceLimitReached r.recurrencePattern (r.occurrences.length + 1) = false) :
    markCompleted now r = preSave now
      { r with
        occurrences := r.occurrences ++
          [{ scheduledFor := r.reminderDateTime, completedAt := some now, wasSkipped := false }]
        reminderDateTime := codeNextDateTime r.recurrencePattern r.reminderDateTime
        isCompleted := false
        completedAt := none
        notificationSent := false
        nextTrigger := some (codeNextDateTime r.recurrencePattern r.reminderDateTime) } := by
  simp only [markCompleted, scheduleNextOccurrence, calculateNextTrigger_eq, hrec, hend,
    hcnt, List.length_append, List.length_cons, List.length_nil, Nat.zero_add,
    Bool.not_true, Bool.false_eq_true, if_true, if_false, ite_true, ite_false,
    Option.getD_some]

/-- Behavior of `markCompleted` when the occurrence limit is reached by the new entry:
the reminder is deactivated and the date is not advanced. -/
theorem markCompleted_limit_eq (now : JDateTime) (r : Reminder)
    (hrec : r.isRecurring = true)
    (hend : endDatePassed now r.recurrencePattern = false)
    (hcnt : occurrenceLimitReached r.recurrencePattern (r.occurrences.length + 1) = true) :
    markCompleted now r = preSave now
      { r with
        isCompleted := true
        completedAt := some now
        occurrences := r.occurrences ++
          [{ scheduledFor := r.reminderDateTime, completedAt := some now, wasSkipped := false }]
        isActive := false } := by
  simp only [markCompleted, scheduleNextOccurrence, hrec, hend, hcnt,
    List.length_append, List.length_cons, List.length_nil, Nat.zero_add,
    Bool.not_true, Bool.false_eq_true, if_true, if_false, ite_true, ite_false]

/-! ## Claim C2 -/

/-- C2: a recurring reminder with `occurrenceCount = 2` stays active after
its 1st completion, becomes inactive exactly after its 2nd completion, and
a 3rd `markCompleted` does not advance `reminderDateTime`; and whenever the
pattern's `endDate` is set and has passed, `scheduleNextOccurrence`
deactivates the reminder instead of scheduling a next occurrence. -/
theorem c2_recurrence_termination :
    (∀ (r : Reminder) (t1 t2 t3 : JDateTime),
        r.isRecurring = true → r.isActive = true → r.occurrences = [] →
        r.recurrencePattern.occurrenceCount = some 2 →
        r.recurrencePattern.endDate = none →
        (markCompleted t1 r).isActive = true ∧
          (markCompleted t2 (markCompleted t1 r)).isActive = false ∧
          (markCompleted t3 (markCompleted t2 (markCompleted t1 r))).reminderDateTime =
            (markCompleted t2 (markCompleted t1 r)).reminderDateTime) ∧
    (∀ (now : JDateTime) (r : Reminder) (e : JDateTime),
        r.isRecurring = true → r.recurrencePattern.endDate = some e →
        toMillis e < toMillis now →
        scheduleNextOccurrence now r = { r with isActive := false }) := by
  constructor
  · intro r t1 t2 t3 hrec hact hocc hcount hend0
    have hendF : ∀ t : JDateTime, endDatePassed t r.recurrencePattern = false := by
      intro t; simp [endDatePassed, hend0]
    have hcnt1 : occurrenceLimitReached r.recurrencePattern (r.occurrences.length + 1) = false := by
      simp only [occurrenceLimitReached, hcount, hocc, List.length_nil]
      decide
    have e1 := markCompleted_advance_eq t1 r hrec (hendF t1) hcnt1
    have h1rec : (markCompleted t1 r).isRecurring = true := by
      rw [e1, (preSave_proj t1 _).2.1]; exact hrec
    have h1act : (markCompleted t1 r).isActive = true := by
      rw [e1, (preSave_proj t1 _).2.2.2.2.2.1]; exact hact
    have h1pat : (markCompleted t1 r).recurrencePattern = r.recurrencePattern := by
      rw [e1, (preSave_proj t1 _).2.2.1]
    have h1occ : (markCompleted t1 r).occurrences.length = 1 := by
      rw [e1, (preSave_proj t1 _).2.2.2.2.2.2.2]
      simp [hocc]
    have hend2 : endDatePassed t2 (markCompleted t1 r).recurrencePattern = false := by
      rw [h1pat]; exact hendF t2
    have hcnt2 : occurrenceLimitReached (markCompleted t1 r).recurrencePattern
        ((markCompleted t1 r).occurrences.length + 1) = true := by
      rw [h1pat, h1occ]
      simp only [occurrenceLimitReached, hcount]
      decide
    have e2 := markCompleted_limit_eq t2 (markCompleted t1 r) h1rec hend2 hcnt2
    have h2rec : (markCompleted t2 (markCompleted t1 r)).isRecurring = true := by
      rw [e2, (preSave_proj t2 _).2.1]; exact h1rec
    have h2act : (markCompleted t2 (markCompleted t1 r)).isActive = false := by
      rw [e2, (preSave_proj t2 _).2.2.2.2.2.1]
    have h2pat : (markCompleted t2 (markCompleted t1 r)).recurrencePattern =
        r.recurrencePattern := by
      rw [e2, (preSave_proj t2 _).2.2.1]; exact h1pat
    have h2occ : (markCompleted t2 (markCompleted t1 r)).occurrences.length = 2 := by
      rw [e2, (preSave_proj t2 _).2.2.2.2.2.2.2]
      simp [h1occ]
    have hend3 : endDatePassed t3 (markCompleted t2 (markCompleted t1 r)).recurrencePattern
        = false := by
      rw [h2pat]; exact hendF t3
    have hcnt3 : occurrenceLimitReached (markCompleted t2 (markCompleted t1 r)).recurrencePattern
        ((markCompleted t2 (markCompleted t1 r)).occurrences.length + 1) = true := by
      rw [h2pat, h2occ]
      simp only [occurrenceLimitReached, hcount]
      decide
    have e3 := markCompleted_limit_eq t3 (markCompleted t2 (markCompleted t1 r)) h2rec hend3 hcnt3
    have h3rdt : (markCompleted t3 (markCompleted t2 (markCompleted t1 r))).reminderDateTime =
        (markCompleted t2 (markCompleted t1 r)).reminderDateTime := by
      rw [e3, (preSave_proj t3 _).1]
    exact ⟨h1act, h2act, h3rdt⟩
  · intro now r e hrec hend hlt
    simp [scheduleNextOccurrence, hrec, endDatePassed, hend, hlt]

/-- A recurring reminder limited to two occurrences. -/
def countReminder : Reminder :=
  { baseReminder with
    isRecurring := true
    recurrencePattern := { basePattern with occurrenceCount := some 2 } }

/-- A recurring reminder whose end date has already passed at `sampleNow`. -/
def endedReminder : Reminder :=
  { baseReminder with
    isRecurring := true
    recurrencePattern := { basePattern with endDate := some jan1_2024 } }

/-- C2 witness: the two-occurrence reminder and the past-end-date reminder. -/
theorem c2_recurrence_termination_witness :
    ((markCompleted sampleNow countReminder).isActive = true ∧
        (markCompleted sampleNow (markCompleted sampleNow countReminder)).isActive = false ∧
        (markCompleted sampleNow (markCompleted sampleNow
            (markCompleted sampleNow countReminder))).reminderDateTime =
          (markCompleted sampleNow (markCompleted sampleNow countReminder)).reminderDateTime) ∧
      scheduleNextOccurrence sampleNow endedReminder =
        { endedReminder with isActive := false } :=
  ⟨c2_recurrence_termination.1 countReminder sampleNow sampleNow sampleNow rfl rfl rfl rfl rfl,
   c2_recurrence_termination.2 sampleNow endedReminder jan1_2024 rfl rfl (by decide)⟩

/-! ## Claim C5 -/

/-- A reminder that is active, incomplete, due, and unsnoozed, but whose
notification was already sent. -/
def sentReminder : Reminder := { baseReminder with notificationSent := true }

/-- C5 counterexample: `sentReminder` satisfies every condition the claim
lists (active, incomplete, due at `sampleNow`, not snoozed), yet
`findDueForNotification` does not return it — the query also requires
`notificationSent: false`, which the claim omits. -/
theorem c5_findDueForNotification_counterexample :
    sentReminder.isActive = true ∧ sentReminder.isCompleted = false ∧
      toMillis sentReminder.reminderDateTime ≤ toMillis sampleNow ∧
      sentReminder.isSnoozed = false ∧
      findDueForNotification sampleNow [sentReminder] = [] := by
  decide

/-- C5 amended: `findDueForNotification` returns exactly the reminders that
are active, incomplete, **whose notification has not been sent**, with
`reminderDateTime ≤ now`, and that are either not snoozed or have
`snoozeUntil ≤ now`. -/
theorem c5_findDueForNotification_amended (now : JDateTime) (db : List Reminder)
    (r : Reminder) :
    r ∈ findDueForNotification now db ↔
      r ∈ db ∧ r.isActive = true ∧ r.isCompleted = false ∧
        r.notificationSent = false ∧
        toMillis r.reminderDateTime ≤ toMillis now ∧
        (r.isSnoozed = false ∨ ∃ s, r.snoozeUntil = some s ∧ toMillis s ≤ toMillis now) := by
  simp only [findDueForNotification, List.mem_filter, Bool.and_eq_true,
    Bool.not_eq_true', decide_eq_true_eq, Bool.or_eq_true]
  cases h : r.snoozeUntil <;> simp [h, and_assoc]

/-! ## Note model (Note schema, flag methods) -/

/-- The status-flag fields of a note document together with the fields the
flag methods write. -/
structure Note where
  isPinned : Bool
  isArchived : Bool
  isDeleted : Bool
  isFavorite : Bool
  labels : List String
  deletedAt : Option JDateTime
  deriving DecidableEq, Repr

/-- Method `noteSchema.methods.togglePin`. -/
def togglePin (n : Note) : Note := { n with isPinned := !n.isPinned }

/-- Method `noteSchema.methods.toggleArchive`. -/
def toggleArchive (n : Note) : Note :=
  let n1 := { n with isArchived := !n.isArchived }
  if n1.isArchived then { n1 with isPinned := false } else n1

/-- Method `noteSchema.methods.toggleFavorite`. -/
def toggleFavorite (n : Note) : Note := { n with isFavorite := !n.isFavorite }

/-- Method `noteSchema.methods.softDelete`. -/
def softDelete (now : JDateTime) (n : Note) : Note :=
  { n with isDeleted := true, deletedAt := some now, isPinned := false }

/-- Method `noteSchema.methods.restore`. -/
def restore (n : Note) : Note := { n with isDeleted := false, deletedAt := none }

/-- Method `noteSchema.methods.addLabel` (a no-op when the label is present). -/
def addLabel (l : String) (n : Note) : Note :=
  if l ∈ n.labels then n else { n with labels := n.labels ++ [l] }

/-- Method `noteSchema.methods.removeLabel`. -/
def removeLabel (l : String) (n : Note) : Note :=
  { n with labels := n.labels.filter (fun x => x ≠ l) }

/-- A note in the schema's default state: no flag set. -/
def freshNote : Note :=
  { isPinned := false, isArchived := false, isDeleted := false,
    isFavorite := false, labels := [], deletedAt := none }

/-! ## Claim C9 -/

/-- C9 (code bug): the claimed invariant "no operation sets the pinned flag
on a note that is archived or deleted" fails — `togglePin` checks nothing,
so archiving a fresh note and then toggling its pin reaches the combined
state `isPinned ∧ isArchived`, which the code's own comment in
`toggleArchive` ("Can't be pinned and archived") rules out; likewise
soft-deleting and then toggling the pin reaches `isPinned ∧ isDeleted`. -/
theorem c9_pinned_archived_reachable :
    (togglePin (toggleArchive freshNote)).isPinned = true ∧
      (togglePin (toggleArchive freshNote)).isArchived = true ∧
      (togglePin (softDelete sampleNow freshNote)).isPinned = true ∧
      (togglePin (softDelete sampleNow freshNote)).isDeleted = true := by
  decide

/-! ## Middleware model (`src/unnamed/part_000`) -/

/-- The JSON error/rate-limit envelope the middleware sends:
`{success, message, code?, retryAfter?}` plus the HTTP status. -/
structure ApiResponse where
  status : Int
  success : Bool
  message : String
  code : Option String
  retryAfter : Option Int
  deriving DecidableEq, Repr

/-- Owner references stored on a resource document (`user` as an ObjectId
string, plus the Firebase uid). -/
structure OwnedResource where
  user : String
  firebaseUid : String
  deriving DecidableEq, Repr

/-- The requester's identities: `req.user._id.toString()` and
`req.firebaseUser.uid`. -/
structure AuthContext where
  userId : String
  firebaseUid : String
  deriving DecidableEq, Repr

/-- Outcome of an Express middleware stage: either a response is sent, or
control passes to `next()` with a resource attached to the request. -/
inductive GateOutcome where
  | respond (resp : ApiResponse)
  | proceed (resource : OwnedResource)
  deriving DecidableEq, Repr

/-- Middleware `validateResourceOwnership(resourceModel, resourceParam)`: the lookup
stands for `resourceModel.findById`. -/
def validateResourceOwnership (lookup : String → Option OwnedResource)
    (resourceId : String) (ctx : AuthContext) : GateOutcome :=
  match lookup resourceId with
  | none => .respond ⟨404, false, "Resource not found", none, none⟩
  | some resource =>
    if resource.user ≠ ctx.userId ∧ resource.firebaseUid ≠ ctx.firebaseUid then
      .respond ⟨403, false, "Access denied: You do not own this resource", none, none⟩
    else .proceed resource

/-! ## Claim C6 -/

def gateStatus : GateOutcome → Option Int
  | .respond resp => some resp.status
  | .proceed _ => none

def gateCode : GateOutcome → Option String
  | .respond resp => resp.code
  | .proceed _ => none

def resourceA : OwnedResource := { user := "userA", firebaseUid := "uidA" }

def ctxB : AuthContext := { userId := "userB", firebaseUid := "uidB" }

/-- C6 counterexample: when neither owner reference matches, the gate does
respond with status 403, but the response body carries no
`code: "ACCESS_DENIED"` field at all — only a message. -/
theorem c6_ownership_code_counterexample :
    gateStatus (validateResourceOwnership (fun _ => some resourceA) "note1" ctxB) = some 403 ∧
      gateCode (validateResourceOwnership (fun _ => some resourceA) "note1" ctxB) = none := by
  constructor <;> rfl

/-- C6 amended: an absent resource yields status 404; a resource matching
neither the requester's internal user id nor their Firebase uid yields
status 403 with the access-denied message (and no machine-readable error
code); otherwise the gate attaches the loaded resource and passes
control on. -/
theorem c6_ownership_gate_amended (lookup : String → Option OwnedResource)
    (resourceId : String) (ctx : AuthContext) :
    (lookup resourceId = none →
        validateResourceOwnership lookup resourceId ctx =
          .respond ⟨404, false, "Resource not found", none, none⟩) ∧
      (∀ res, lookup resourceId = some res → res.user ≠ ctx.userId →
        res.firebaseUid ≠ ctx.firebaseUid →
        validateResourceOwnership lookup resourceId ctx =
          .respond ⟨403, false, "Access denied: You do not own this resource", none, none⟩) ∧
      (∀ res, lookup resourceId = some res →
        (res.user = ctx.userId ∨ res.firebaseUid = ctx.firebaseUid) →
        validateResourceOwnership lookup resourceId ctx = .proceed res) := by
  refine ⟨fun h => by simp [validateResourceOwnership, h], ?_, ?_⟩
  · intro res h h1 h2
    simp [validateResourceOwnership, h, h1, h2]
  · intro res h hor
    rcases hor with h1 | h1 <;> simp [validateResourceOwnership, h, h1]

def ctxA_byId : AuthContext := { userId := "userA", firebaseUid := "uidOther" }

def ctxA_byUid : AuthContext := { userId := "userOther", firebaseUid := "uidA" }

/-- C6 witness: all three gate outcomes at concrete inputs — absent
resource, foreign requester, and owner matched by either reference. -/
theorem c6_ownership_gate_amended_witness :
    validateResourceOwnership (fun _ => none) "note1" ctxB =
        .respond ⟨404, false, "Resource not found", none, none⟩ ∧
      validateResourceOwnership (fun _ => some resourceA) "note1" ctxB =
        .respond ⟨403, false, "Access denied: You do not own this resource", none, none⟩ ∧
      validateResourceOwnership (fun _ => some resourceA) "note1" ctxA_byId =
        .proceed resourceA ∧
      validateResourceOwnership (fun _ => some resourceA) "note1" ctxA_byUid =
        .proceed resourceA :=
  ⟨(c6_ownership_gate_amended (fun _ => none) "note1" ctxB).1 rfl,
   (c6_ownership_gate_amended (fun _ => some resourceA) "note1" ctxB).2.1 resourceA rfl
     (by decide) (by decide),
   (c6_ownership_gate_amended (fun _ => some resourceA) "note1" ctxA_byId).2.2 resourceA rfl
     (Or.inl rfl),
   (c6_ownership_gate_amended (fun _ => some resourceA) "note1" ctxA_byUid).2.2 resourceA rfl
     (Or.inr rfl)⟩

/-! ## Rate limiter (`createUserRateLimit`) -/

/-- The default 429 message built by the template literal.  (For the
windows used here `windowMs / 1000` is exact, matching the JS division.) -/
def defaultRateLimitMessage (windowMs max : Int) : String :=
  "Too many requests. Maximum " ++ toString max ++ " requests per " ++
    toString (windowMs / 1000) ++ " seconds."

/-- Value `Math.ceil(msRemaining / 1000)` on integer milliseconds. -/
def ceilSeconds (msRemaining : Int) : Int := (msRemaining + 999).fdiv 1000

/-- One invocation of the closure returned by
`createUserRateLimit(windowMs, max, message)`.  The per-user timestamp map
is modelled as a function with `[]` for absent keys; the result pairs the
sent response (`none` meaning `next()` was called) with the updated map.
(`recentRequests[0]` is `NaN` in JS when the pruned list is empty, which
cannot happen once `max ≥ 1`; it is modelled by `headD 0`.) -/
def rateLimitStep (windowMs max : Int) (message : Option String) (user : Option String)
    (now : Int) (s : String → List Int) :
    Option ApiResponse × (String → List Int) :=
  match user with
  | none => (none, s)
  | some userId =>
    let windowStart := now - windowMs
    let userRequestTimes := s userId
    let recentRequests := userRequestTimes.filter (fun t => decide (windowStart < t))
    if max ≤ (recentRequests.length : Int) then
      (some ⟨429, false, message.getD (defaultRateLimitMessage windowMs max), none,
        some (ceilSeconds (recentRequests.headD 0 + windowMs - now))⟩, s)
    else
      (none, fun u => if u = userId then recentRequests ++ [now] else s u)

theorem rateLimitStep_some (w m : Int) (msg : Option String) (uid : String)
    (now : Int) (s : String → List Int) :
    rateLimitStep w m msg (some uid) now s =
      (if m ≤ (((s uid).filter (fun t => decide (now - w < t))).length : Int) then
        (some ⟨429, false, msg.getD (defaultRateLimitMessage w m), none,
          some (ceilSeconds (((s uid).filter
            (fun t => decide (now - w < t))).headD 0 + w - now))⟩, s)
      else
        (none, fun u => if u = uid
          then ((s uid).filter (fun t => decide (now - w < t))) ++ [now]
          else s u)) := rfl

/-- The limiter state after running the closure on each timestamp of `ts`
in order, for one authenticated user `u`, with `windowMs = 1000, max = 3`. -/
def rlChain (u : String) (s : String → List Int) (ts : List Int) : String → List Int :=
  ts.foldl (fun acc now => (rateLimitStep 1000 3 none (some u) now acc).2) s

/-! ## Claim C7 -/

/-- C7: with `max = 3, windowMs = 1000`, three requests from one user
succeed, a fourth inside the window of all three is rejected with 429 and a
nonnegative `retryAfter` equal to the ceiling-rounded seconds until the
oldest in-window timestamp leaves the window, a request after the window
has elapsed succeeds again, and unauthenticated requests bypass the
limiter entirely. -/
theorem c7_rate_limiter_window (u : String) (s0 : String → List Int)
    (t0 t1 t2 t3 t4 : Int) (hs0 : s0 u = [])
    (h01 : t0 ≤ t1) (h12 : t1 ≤ t2) (h23 : t2 ≤ t3)
    (hwin : t3 - 1000 < t0) (hel : t2 + 1000 ≤ t4) :
    (rateLimitStep 1000 3 none (some u) t0 (rlChain u s0 [])).1 = none ∧
      (rateLimitStep 1000 3 none (some u) t1 (rlChain u s0 [t0])).1 = none ∧
      (rateLimitStep 1000 3 none (some u) t2 (rlChain u s0 [t0, t1])).1 = none ∧
      (rateLimitStep 1000 3 none (some u) t3 (rlChain u s0 [t0, t1, t2])).1 =
        some ⟨429, false, defaultRateLimitMessage 1000 3, none,
          some (ceilSeconds (t0 + 1000 - t3))⟩ ∧
      0 ≤ ceilSeconds (t0 + 1000 - t3) ∧
      rlChain u s0 [t0, t1, t2, t3] = rlChain u s0 [t0, t1, t2] ∧
      (rateLimitStep 1000 3 none (some u) t4 (rlChain u s0 [t0, t1, t2, t3])).1 = none ∧
      (∀ (now : Int) (s : String → List Int),
        rateLimitStep 1000 3 none none now s = (none, s)) := by
  have pd10 : t1 - 1000 < t0 := by omega
  have pd20 : t2 - 1000 < t0 := by omega
  have pd21 : t2 - 1000 < t1 := by omega
  have pd30 : t3 - 1000 < t0 := hwin
  have pd31 : t3 - 1000 < t1 := by omega
  have pd32 : t3 - 1000 < t2 := by omega
  have n0 : ¬(t4 - 1000 < t0) := by omega
  have n1 : ¬(t4 - 1000 < t1) := by omega
  have n2 : ¬(t4 - 1000 < t2) := by omega
  have g1 : rlChain u s0 [t0] u = [t0] := by
    show (rateLimitStep 1000 3 none (some u) t0 s0).2 u = [t0]
    rw [rateLimitStep_some]
    norm_num [hs0]
  have g2 : rlChain u s0 [t0, t1] u = [t0, t1] := by
    show (rateLimitStep 1000 3 none (some u) t1 (rlChain u s0 [t0])).2 u = [t0, t1]
    rw [rateLimitStep_some]
    norm_num [g1, pd10]
  have g3 : rlChain u s0 [t0, t1, t2] u = [t0, t1, t2] := by
    show (rateLimitStep 1000 3 none (some u) t2 (rlChain u s0 [t0, t1])).2 u = [t0, t1, t2]
    rw [rateLimitStep_some]
    norm_num [g2, pd20, pd21]
  have r4 : rateLimitStep 1000 3 none (some u) t3 (rlChain u s0 [t0, t1, t2]) =
      (some ⟨429, false, defaultRateLimitMessage 1000 3, none,
        some (ceilSeconds (t0 + 1000 - t3))⟩, rlChain u s0 [t0, t1, t2]) := by
    rw [rateLimitStep_some]
    norm_num [g3, pd30, pd31, pd32]
  have st4 : rlChain u s0 [t0, t1, t2, t3] = rlChain u s0 [t0, t1, t2] := by
    show (rateLimitStep 1000 3 none (some u) t3 (rlChain u s0 [t0, t1, t2])).2 =
      rlChain u s0 [t0, t1, t2]
    rw [r4]
  refine ⟨?_, ?_, ?_, by rw [r4], ?_, st4, ?_, fun now s => rfl⟩
  · rw [show rlChain u s0 [] = s0 from rfl, rateLimitStep_some]
    norm_num [hs0]
  · rw [rateLimitStep_some]
    norm_num [g1, pd10]
  · rw [rateLimitStep_some]
    norm_num [g2, pd20, pd21]
  · exact Int.fdiv_nonneg (by omega) (by norm_num)
  · rw [st4, rateLimitStep_some]
    norm_num [g3, n0, n1, n2]

/-- C7 witness: requests at 0, 1, 2, 3 and 1002 milliseconds from an empty
limiter state. -/
theorem c7_rate_limiter_window_witness :
    (rateLimitStep 1000 3 none (some "u") 0 (rlChain "u" (fun _ => []) [])).1 = none ∧
      (rateLimitStep 1000 3 none (some "u") 1 (rlChain "u" (fun _ => []) [0])).1 = none ∧
      (rateLimitStep 1000 3 none (some "u") 2 (rlChain "u" (fun _ => []) [0, 1])).1 = none ∧
      (rateLimitStep 1000 3 none (some "u") 3 (rlChain "u" (fun _ => []) [0, 1, 2])).1 =
        some ⟨429, false, defaultRateLimitMessage 1000 3, none,
          some (ceilSeconds (0 + 1000 - 3))⟩ ∧
      0 ≤ ceilSeconds (0 + 1000 - 3) ∧
      rlChain "u" (fun _ => []) [0, 1, 2, 3] = rlChain "u" (fun _ => []) [0, 1, 2] ∧
      (rateLimitStep 1000 3 none (some "u") 1002 (rlChain "u" (fun _ => []) [0, 1, 2, 3])).1 =
        none ∧
      (∀ (now : Int) (s : String → List Int),
        rateLimitStep 1000 3 none none now s = (none, s)) :=
  c7_rate_limiter_window "u" (fun _ => []) 0 1 2 3 1002 rfl (by norm_num) (by norm_num)
    (by norm_num) (by norm_num) (by norm_num)

/-! ## Claim C10 -/

/-- C10: whenever the rate limiter sends a response rather than passing the
request on, that response has status 429 and the stored per-user timestamp
map is returned unchanged — a rejected request is never recorded. -/
theorem c10_reject_leaves_state (windowMs max : Int) (msg : Option String)
    (user : Option String) (now : Int) (s : String → List Int) (resp : ApiResponse)
    (h : (rateLimitStep windowMs max msg user now s).1 = some resp) :
    resp.status = 429 ∧ (rateLimitStep windowMs max msg user now s).2 = s := by
  cases user with
  | none => simp [rateLimitStep] at h
  | some uid =>
    rw [rateLimitStep_some] at h ⊢
    split at h
    · next hc =>
      rw [if_pos hc]
      cases h.symm.trans rfl
      injection h with h'
      cases h'
      exact ⟨rfl, rfl⟩
    · simp at h

/-- C10 witness: a user with three in-window timestamps is rejected and the
map is unchanged. -/
theorem c10_reject_leaves_state_witness :
    (⟨429, false, defaultRateLimitMessage 1000 3, none, some 1⟩ : ApiResponse).status = 429 ∧
      (rateLimitStep 1000 3 none (some "u") 0 (fun _ => [0, 0, 0])).2 = fun _ => [0, 0, 0] :=
  c10_reject_leaves_state 1000 3 none (some "u") 0 (fun _ => [0, 0, 0])
    ⟨429, false, defaultRateLimitMessage 1000 3, none, some 1⟩ (by decide)

/-! ## Authentication middleware (`authenticateToken`) -/

/-- Verified claims returned by Firebase `verifyIdToken`. -/
structure DecodedToken where
  uid : String
  email : String
  name : Option String
  picture : Option String
  email_verified : Bool
  deriving DecidableEq, Repr

/-- The user-directory record the middleware attaches to the request. -/
structure DbUser where
  dbId : String
  firebaseUid : String
  email : String
  displayName : String
  isActive : Bool
  lastLogin : Option Int
  deriving DecidableEq, Repr

/-- Method `user.updateLastLogin()`. -/
def updateLastLogin (now : Int) (u : DbUser) : DbUser := { u with lastLogin := some now }

/-- JS `String.prototype.includes`. -/
def strContains (s sub : String) : Bool := decide (sub.toList <:+: s.toList)

/-- Split a character list at every space, keeping empty parts, as JS
`String.prototype.split(' ')` does. -/
def splitSpaceAux : List Char → List (List Char)
  | [] => [[]]
  | c :: cs =>
    match splitSpaceAux cs with
    | [] => [[c]]
    | h :: t => if c = ' ' then [] :: h :: t else (c :: h) :: t

/-- JS `s.split(' ')`. -/
def jsSplitSpace (s : String) : List String :=
  (splitSpaceAux s.toList).map (fun cs => String.mk cs)

/-- Expression `authHeader && authHeader.split(' ')[1]` with JS truthiness: the result
is `none` when the header is absent or empty, when there is no second
space-separated part, or when that part is the empty string. -/
def jsBearerToken (authHeader : Option String) : Option String :=
  match authHeader with
  | none => none
  | some h =>
    if h = "" then none
    else
      match ((jsSplitSpace h).drop 1).head? with
      | none => none
      | some t => if t = "" then none else some t

/-- Result of running the `authenticateToken` middleware: the response sent
(`none` meaning `next()` was reached), what got attached to the request,
and how many calls were made to the identity verifier and to the user
directory. -/
structure AuthStageResult where
  response : Option ApiResponse
  reqUser : Option DbUser
  reqFirebaseUser : Option DecodedToken
  verifierCalls : Nat
  directoryCalls : Nat
  deriving DecidableEq, Repr

/-- The `authenticateToken` middleware.  `verify` stands for Firebase
`verifyIdToken` (throwing modelled as `Except.error` with the error
message), `findByUid` for `User.findByFirebaseUid`, and `create` for
`User.createFromFirebase` on the decoded claims. -/
def authenticateToken (verify : String → Except String DecodedToken)
    (findByUid : String → Option DbUser) (create : DecodedToken → DbUser)
    (now : Int) (authHeader : Option String) : AuthStageResult :=
  match jsBearerToken authHeader with
  | none =>
    { response := some ⟨401, false, "Access token required", none, none⟩,
      reqUser := none, reqFirebaseUser := none, verifierCalls := 0, directoryCalls := 0 }
  | some token =>
    match verify token with
    | .error emsg =>
      let resp :=
        if strContains emsg "expired" then
          (⟨401, false, "Token has expired", some "TOKEN_EXPIRED", none⟩ : ApiResponse)
        else if strContains emsg "Invalid token" || strContains emsg "invalid" then
          ⟨401, false, "Invalid authentication token", some "INVALID_TOKEN", none⟩
        else ⟨401, false, "Authentication failed", some "AUTH_FAILED", none⟩
      { response := some resp, reqUser := none, reqFirebaseUser := none,
        verifierCalls := 1, directoryCalls := 0 }
    | .ok decoded =>
      match findByUid decoded.uid with
      | none =>
        { response := none, reqUser := some (create decoded),
          reqFirebaseUser := some decoded, verifierCalls := 1, directoryCalls := 2 }
      | some user =>
        { response := none, reqUser := some (updateLastLogin now user),
          reqFirebaseUser := some decoded, verifierCalls := 1, directoryCalls := 2 }

/-! ## Claim C8 -/

def sampleDecoded : DecodedToken :=
  { uid := "uidA", email := "a@example.com", name := some "A", picture := none,
    email_verified := true }

def sampleUser : DbUser :=
  { dbId := "userA", firebaseUid := "uidA", email := "a@example.com",
    displayName := "A", isActive := true, lastLogin := none }

def sampleVerify : String → Except String DecodedToken := fun _ => .ok sampleDecoded

def sampleDirectory : String → Option DbUser := fun _ => some sampleUser

def sampleCreate : DecodedToken → DbUser := fun _ => sampleUser

/-- C8 counterexample: with no Authorization header the middleware does
respond with status 401 and does not call the verifier or the directory,
but the response body carries no `code` field at all (the `AUTH_FAILED`
code exists only in the catch-all error path), so "401 with error code
AUTH_FAILED" is not what this path sends. -/
theorem c8_missing_token_counterexample :
    (authenticateToken sampleVerify sampleDirectory sampleCreate 0 none).response =
        some ⟨401, false, "Access token required", none, none⟩ ∧
      (authenticateToken sampleVerify sampleDirectory sampleCreate 0 none).response.bind
          ApiResponse.code = none := by
  constructor <;> rfl

/-- C8 amended: for every request whose Authorization header carries no
bearer token, the middleware responds with status 401, message
"Access token required" and no error-code field, attaches nothing, and
makes zero calls to the identity verifier and to the user directory —
whatever those collaborators would do. -/
theorem c8_missing_token_amended (verify : String → Except String DecodedToken)
    (findByUid : String → Option DbUser) (create : DecodedToken → DbUser)
    (now : Int) (authHeader : Option String)
    (htok : jsBearerToken authHeader = none) :
    authenticateToken verify findByUid create now authHeader =
      { response := some ⟨401, false, "Access token required", none, none⟩,
        reqUser := none, reqFirebaseUser := none,
        verifierCalls := 0, directoryCalls := 0 } := by
  simp [authenticateToken, htok]

/-- C8 witness: the empty header, the bare `Bearer` header, and the header
with an empty token all hit the 401 path with zero collaborator calls. -/
theorem c8_missing_token_amended_witness :
    authenticateToken sampleVerify sampleDirectory sampleCreate 0 none =
        { response := some ⟨401, false, "Access token required", none, none⟩,
          reqUser := none, reqFirebaseUser := none,
          verifierCalls := 0, directoryCalls := 0 } ∧
      authenticateToken sampleVerify sampleDirectory sampleCreate 0 (some "Bearer") =
        { response := some ⟨401, false, "Access token required", none, none⟩,
          reqUser := none, reqFirebaseUser := none,
          verifierCalls := 0, directoryCalls := 0 } :=
  ⟨c8_missing_token_amended sampleVerify sampleDirectory sampleCreate 0 none rfl,
   c8_missing_token_amended sampleVerify sampleDirectory sampleCreate 0 (some "Bearer")
     (by decide)⟩

end KeepClone
